import Mathlib

set_option maxRecDepth 100000

/-!
Shallow embedding of the airbnb-manager repository (Python) used to check the
claims of its natural-language specification.

Conventions used throughout:
* SQLite rows become Lean structures; a table becomes a `List` of rows; SQL
  `UPDATE`/`SELECT` become `List.map`/`List.filter` over the rows.
* SQL `DATE` columns hold text values that SQLite compares with its total
  order on the stored values; we model them by an arbitrary linearly
  ordered type `α` (witnesses instantiate `α := Nat`).
* `NULL`-able columns become `Option` values; Python truthiness of a value
  read back from the database is the function `pyTruthy` below.
* `datetime.now()` becomes an explicit `now` parameter.
-/

/-- SQLite dynamic value as read back into Python: a text or an integer
(the only kinds the conversation store writes into its nullable columns). -/
inductive PyVal where
  | vstr (s : String)
  | vint (n : Int)
deriving DecidableEq, Repr

/-- Python truthiness of a nullable value fetched from SQLite:
`None`, `""` and `0` are falsy, everything else truthy. -/
def pyTruthy : Option PyVal → Bool
  | none => false
  | some (.vstr s) => !(s == "")
  | some (.vint n) => !(n == 0)

/-! ## Primary relational store: `reservas` (src/airbnb-manager/db/database.py) -/

/-- Row of the `reservas` table created by `init_db`.  `fecha_inicio` /
`fecha_fin` are `DATE` values modelled by the ordered type `α`;
`precio_total` (`REAL`) is modelled as a rational. -/
structure Reserva (α : Type) where
  id : Nat
  propiedad_id : Nat
  fecha_inicio : α
  fecha_fin : α
  huesped : String
  correo : Option String := none
  telefono : Option String := none
  estado : String := "pendiente"
  precio_total : Option ℚ := none
deriving DecidableEq, Repr

/-- The WHERE clause of `verificar_disponibilidad` (database.py lines 97-108):
`propiedad_id = ? AND estado IN ('confirmada', 'pendiente')
AND NOT (fecha_fin < ? OR fecha_inicio > ?)`, the parameters being the
queried property id, `fecha_inicio` and `fecha_fin` of the new request. -/
def matchesDisponQuery {α : Type} [LinearOrder α] (pid : Nat) (fi ff : α)
    (r : Reserva α) : Bool :=
  r.propiedad_id == pid &&
  (r.estado == "confirmada" || r.estado == "pendiente") &&
  !(decide (r.fecha_fin < fi) || decide (r.fecha_inicio > ff))

/-- `verificar_disponibilidad(propiedad_id, fecha_inicio, fecha_fin)`:
fetches all rows matching the WHERE clause and returns `len(data) == 0`. -/
def verificar_disponibilidad {α : Type} [LinearOrder α] (db : List (Reserva α))
    (pid : Nat) (fi ff : α) : Bool :=
  (db.filter (matchesDisponQuery pid fi ff)).length == 0

/-- The WHERE clause of `verificar_disponibilidad_optimized`
(optimized_database.py lines 250-278): `propiedad_id = ? AND estado !=
'cancelada' AND ((fecha_inicio <= ?fi AND fecha_fin > ?fi) OR
(fecha_inicio < ?ff AND fecha_fin >= ?ff) OR
(fecha_inicio >= ?fi AND fecha_fin <= ?ff))` — the parameter tuple in the
source binds the first two placeholders to `fecha_inicio`, the next two to
`fecha_fin`, and the last two to `fecha_inicio`, `fecha_fin`. -/
def matchesDisponOptQuery {α : Type} [LinearOrder α] (pid : Nat) (fi ff : α)
    (r : Reserva α) : Bool :=
  r.propiedad_id == pid &&
  !(r.estado == "cancelada") &&
  ((decide (r.fecha_inicio ≤ fi) && decide (r.fecha_fin > fi)) ||
   (decide (r.fecha_inicio < ff) && decide (r.fecha_fin ≥ ff)) ||
   (decide (r.fecha_inicio ≥ fi) && decide (r.fecha_fin ≤ ff)))

/-- `verificar_disponibilidad_optimized(propiedad_id, fecha_inicio,
fecha_fin)` evaluated with an empty cache (the cache lookup misses and the
result is what the SELECT COUNT(*) decides): `conflictos == 0`. -/
def verificar_disponibilidad_optimized {α : Type} [LinearOrder α]
    (db : List (Reserva α)) (pid : Nat) (fi ff : α) : Bool :=
  (db.filter (matchesDisponOptQuery pid fi ff)).length == 0

/-- The database state of the spec's §8 acceptance test: one reservation for
property 1 from 2024-10-10 to 2024-10-15 in status `pendiente`
(dates encoded as the naturals `yyyymmdd`, which orders them exactly as
SQLite orders the corresponding `YYYY-MM-DD` strings). -/
def dbOnePendiente : List (Reserva Nat) :=
  [{ id := 1, propiedad_id := 1, fecha_inicio := 20241010,
     fecha_fin := 20241015, huesped := "Juan", estado := "pendiente" }]

/-! ## MD5 (`hashlib.md5`), as specified by RFC 1321.

`get_conversation_id` hashes its key with `hashlib.md5(...).hexdigest()[:12]`;
the functions below implement MD5 over byte lists (`Nat` values < 256,
32-bit words as `Nat` reduced mod `2^32`). -/

def w32 (n : Nat) : Nat := n % 4294967296

def rotl32 (x s : Nat) : Nat := w32 (x * 2 ^ s) + x / 2 ^ (32 - s)

def md5K : List Nat :=
  [0xd76aa478, 0xe8c7b756, 0x242070db, 0xc1bdceee,
   0xf57c0faf, 0x4787c62a, 0xa8304613, 0xfd469501,
   0x698098d8, 0x8b44f7af, 0xffff5bb1, 0x895cd7be,
   0x6b901122, 0xfd987193, 0xa679438e, 0x49b40821,
   0xf61e2562, 0xc040b340, 0x265e5a51, 0xe9b6c7aa,
   0xd62f105d, 0x02441453, 0xd8a1e681, 0xe7d3fbc8,
   0x21e1cde6, 0xc33707d6, 0xf4d50d87, 0x455a14ed,
   0xa9e3e905, 0xfcefa3f8, 0x676f02d9, 0x8d2a4c8a,
   0xfffa3942, 0x8771f681, 0x6d9d6122, 0xfde5380c,
   0xa4beea44, 0x4bdecfa9, 0xf6bb4b60, 0xbebfbc70,
   0x289b7ec6, 0xeaa127fa, 0xd4ef3085, 0x04881d05,
   0xd9d4d039, 0xe6db99e5, 0x1fa27cf8, 0xc4ac5665,
   0xf4292244, 0x432aff97, 0xab9423a7, 0xfc93a039,
   0x655b59c3, 0x8f0ccc92, 0xffeff47d, 0x85845dd1,
   0x6fa87e4f, 0xfe2ce6e0, 0xa3014314, 0x4e0811a1,
   0xf7537e82, 0xbd3af235, 0x2ad7d2bb, 0xeb86d391]

def md5S : List Nat :=
  [7, 12, 17, 22, 7, 12, 17, 22, 7, 12, 17, 22, 7, 12, 17, 22,
   5, 9, 14, 20, 5, 9, 14, 20, 5, 9, 14, 20, 5, 9, 14, 20,
   4, 11, 16, 23, 4, 11, 16, 23, 4, 11, 16, 23, 4, 11, 16, 23,
   6, 10, 15, 21, 6, 10, 15, 21, 6, 10, 15, 21, 6, 10, 15, 21]

def md5F (i b c d : Nat) : Nat :=
  if i < 16 then Nat.lor (Nat.land b c) (Nat.land (Nat.xor 4294967295 b) d)
  else if i < 32 then Nat.lor (Nat.land d b) (Nat.land (Nat.xor 4294967295 d) c)
  else if i < 48 then Nat.xor b (Nat.xor c d)
  else Nat.xor c (Nat.lor b (Nat.xor 4294967295 d))

def md5G (i : Nat) : Nat :=
  if i < 16 then i
  else if i < 32 then (5 * i + 1) % 16
  else if i < 48 then (3 * i + 5) % 16
  else (7 * i) % 16

def md5Round (M : List Nat) (st : Nat × Nat × Nat × Nat) (i : Nat) :
    Nat × Nat × Nat × Nat :=
  let a := st.1
  let b := st.2.1
  let c := st.2.2.1
  let d := st.2.2.2
  let f := w32 (md5F i b c d + a + md5K.getD i 0 + M.getD (md5G i) 0)
  (d, w32 (b + rotl32 f (md5S.getD i 0)), b, c)

def leBytes (n k : Nat) : List Nat := (List.range k).map (fun i => n / 2 ^ (8 * i) % 256)

def blockWords (blk : List Nat) : List Nat :=
  (List.range 16).map (fun j =>
    blk.getD (4 * j) 0 + 256 * blk.getD (4 * j + 1) 0 +
    65536 * blk.getD (4 * j + 2) 0 + 16777216 * blk.getD (4 * j + 3) 0)

def md5Block (st : Nat × Nat × Nat × Nat) (blk : List Nat) : Nat × Nat × Nat × Nat :=
  let M := blockWords blk
  let r := (List.range 64).foldl (md5Round M) st
  (w32 (st.1 + r.1), w32 (st.2.1 + r.2.1), w32 (st.2.2.1 + r.2.2.1), w32 (st.2.2.2 + r.2.2.2))

def md5Pad (msg : List Nat) : List Nat :=
  msg ++ [128] ++ List.replicate ((119 - msg.length % 64) % 64) 0 ++
    leBytes (8 * msg.length % 2 ^ 64) 8

def chunks64Aux : Nat → List Nat → List (List Nat)
  | 0, _ => []
  | _, [] => []
  | n + 1, a :: rest => ((a :: rest).take 64) :: chunks64Aux n ((a :: rest).drop 64)

def chunks64 (l : List Nat) : List (List Nat) := chunks64Aux (l.length + 1) l

def md5Digest (msg : List Nat) : List Nat :=
  let st := (chunks64 (md5Pad msg)).foldl md5Block
    (0x67452301, 0xefcdab89, 0x98badcfe, 0x10325476)
  leBytes st.1 4 ++ leBytes st.2.1 4 ++ leBytes st.2.2.1 4 ++ leBytes st.2.2.2 4

def hexChars : List Char := "0123456789abcdef".data

def byteHex (b : Nat) : List Char := [hexChars.getD (b / 16) '0', hexChars.getD (b % 16) '0']

def md5HexDigest (msg : List Nat) : List Char := (md5Digest msg).flatMap byteHex

def utf8EncodeChar (c : Char) : List Nat :=
  let n := c.toNat
  if n < 128 then [n]
  else if n < 2048 then [192 + n / 64, 128 + n % 64]
  else if n < 65536 then [224 + n / 4096, 128 + n / 64 % 64, 128 + n % 64]
  else [240 + n / 262144, 128 + n / 4096 % 64, 128 + n / 64 % 64, 128 + n % 64]

def utf8Encode (s : String) : List Nat := s.data.flatMap utf8EncodeChar


/-! ## String helpers shared by the conversation-id functions.

`pyLowerChar` is Python `str.lower` restricted to the characters this
code base manipulates (ASCII plus the Spanish accented capitals);
`pySpace` is Python's `str.strip`/regex `\s` whitespace set. -/

def pyLowerChar (c : Char) : Char :=
  if 'A' ≤ c ∧ c ≤ 'Z' then Char.ofNat (c.toNat + 32)
  else if c = 'Á' then 'á' else if c = 'É' then 'é' else if c = 'Í' then 'í'
  else if c = 'Ó' then 'ó' else if c = 'Ú' then 'ú' else if c = 'Ñ' then 'ñ'
  else if c = 'Ü' then 'ü' else c

def pyLower (s : String) : String := String.mk (s.data.map pyLowerChar)

def pySpace (c : Char) : Bool :=
  " \t\n\r\x0b\x0c".data.contains c

def pyStripList (cs : List Char) : List Char :=
  (cs.dropWhile pySpace).rdropWhile pySpace

def stripRFW (cs : List Char) : List Char :=
  if cs.take 3 = ['r', 'e', ':'] then (cs.drop 3).dropWhile pySpace
  else if cs.take 3 = ['f', 'w', ':'] then (cs.drop 3).dropWhile pySpace
  else if cs.take 4 = ['f', 'w', 'd', ':'] then (cs.drop 4).dropWhile pySpace
  else cs

def cleanSubject (asunto : String) : List Char :=
  stripRFW (pyStripList (pyLower asunto).data)

def get_conversation_id (remitente asunto : String) : String :=
  String.mk ((md5HexDigest (utf8Encode
    (String.mk ((pyLower remitente).data ++ ['|'] ++ cleanSubject asunto)))).take 12)


/-- `ConversationTracker.generate_conversation_id(client_email, subject)`
(utils/conversation_tracker.py lines 14-19): the file-backed analog of
`get_conversation_id`, with character-identical code. -/
def generate_conversation_id (client_email subject : String) : String :=
  String.mk ((md5HexDigest (utf8Encode
    (String.mk ((pyLower client_email).data ++ ['|'] ++ cleanSubject subject)))).take 12)

/-! ## Conversation store (src/airbnb-manager/db/conversation_db.py) -/

/-- Row of the `conversations` table created by `init_conversation_db`.
All nullable data columns hold SQLite dynamic values (`Option PyVal`);
`estado` has SQL default `'en_progreso'`; the timestamp columns are
modelled as the `Nat` instants handed in for `datetime.now()`. -/
structure Conversation where
  id : String
  asunto : String
  remitente : String
  nombre_cliente : Option PyVal := none
  propiedad : Option PyVal := none
  propiedad_id : Option PyVal := none
  check_in : Option PyVal := none
  check_out : Option PyVal := none
  numero_huespedes : Option PyVal := none
  correo_cliente : Option PyVal := none
  telefono_cliente : Option PyVal := none
  confirmacion : Option PyVal := none
  estado : Option PyVal := some (.vstr "en_progreso")
  created_at : Nat
  updated_at : Nat
deriving DecidableEq, Repr

/-- `get_conversation(conversation_id)`: `SELECT * FROM conversations WHERE
id = ?` and `fetchone()` — the first row with that id, if any. -/
def get_conversation (db : List Conversation) (cid : String) : Option Conversation :=
  db.find? (fun c => c.id == cid)

/-- `create_or_update_conversation(remitente, asunto)`: computes the id; if a
row with that id exists only `updated_at` is stamped, otherwise a fresh row
`(id, asunto, remitente)` is inserted (all other data columns NULL, `estado`
taking its SQL default).  Returns the new table and the id. -/
def create_or_update_conversation (db : List Conversation) (remitente asunto : String)
    (now : Nat) : List Conversation × String :=
  let cid := get_conversation_id remitente asunto
  match get_conversation db cid with
  | some _ => (db.map (fun c => if c.id == cid then { c with updated_at := now } else c), cid)
  | none => (db ++ [{ id := cid, asunto := asunto, remitente := remitente,
                      created_at := now, updated_at := now }], cid)

/-- The `allowed_fields` whitelist of `update_conversation_field`
(conversation_db.py lines 118-121). -/
def allowed_fields : List String :=
  ["nombre_cliente", "propiedad", "propiedad_id", "check_in", "check_out",
   "numero_huespedes", "correo_cliente", "telefono_cliente", "confirmacion", "estado"]

/-- The SQL `UPDATE conversations SET {field} = ?, updated_at = ? WHERE id = ?`
applied to a single row, for a field name drawn from `allowed_fields`. -/
def setConversationField (c : Conversation) (field : String) (v : PyVal) (now : Nat) :
    Conversation :=
  let c' :=
    if field = "nombre_cliente" then { c with nombre_cliente := some v }
    else if field = "propiedad" then { c with propiedad := some v }
    else if field = "propiedad_id" then { c with propiedad_id := some v }
    else if field = "check_in" then { c with check_in := some v }
    else if field = "check_out" then { c with check_out := some v }
    else if field = "numero_huespedes" then { c with numero_huespedes := some v }
    else if field = "correo_cliente" then { c with correo_cliente := some v }
    else if field = "telefono_cliente" then { c with telefono_cliente := some v }
    else if field = "confirmacion" then { c with confirmacion := some v }
    else if field = "estado" then { c with estado := some v }
    else c
  { c' with updated_at := now }

/-- `update_conversation_field(conversation_id, field, value)`: raises
`ValueError(f"Campo no válido: {field}")` when `field` is not in
`allowed_fields`, else runs the UPDATE on every row whose id matches. -/
def update_conversation_field (db : List Conversation) (cid field : String) (v : PyVal)
    (now : Nat) : Except String (List Conversation) :=
  if field ∈ allowed_fields then
    .ok (db.map (fun c => if c.id == cid then setConversationField c field v now else c))
  else
    .error ("Campo no válido: " ++ field)

/-- `get_missing_fields(conversation_id)` (conversation_db.py lines 139-168):
for an unknown id the six required names; otherwise each of the six is
appended when its stored value is Python-falsy (`not conversation.get(f)`). -/
def get_missing_fields (db : List Conversation) (cid : String) : List String :=
  match get_conversation db cid with
  | none =>
      ["nombre_cliente", "propiedad", "check_in", "check_out",
       "numero_huespedes", "correo_cliente"]
  | some c =>
      (if !pyTruthy c.nombre_cliente then ["nombre_cliente"] else []) ++
      (if !pyTruthy c.propiedad then ["propiedad"] else []) ++
      (if !pyTruthy c.check_in then ["check_in"] else []) ++
      (if !pyTruthy c.check_out then ["check_out"] else []) ++
      (if !pyTruthy c.numero_huespedes then ["numero_huespedes"] else []) ++
      (if !pyTruthy c.correo_cliente then ["correo_cliente"] else [])

/-- `is_confirmed(conversation_id)`: the row exists and its `confirmacion`
value compares equal (Python `==`) to the literal string `"sí"`. -/
def is_confirmed (db : List Conversation) (cid : String) : Bool :=
  match get_conversation db cid with
  | some c => c.confirmacion == some (.vstr "sí")
  | none => false

/-- Convenience used only to chain calls in theorem statements: the new table
of a *successful* `update_conversation_field` call (unchanged table when the
call raises).  For any `field ∈ allowed_fields` it is exactly the update. -/
def applyUpdate (db : List Conversation) (cid field : String) (v : PyVal) (now : Nat) :
    List Conversation :=
  match update_conversation_field db cid field v now with
  | .ok db' => db'
  | .error _ => db

/-! ## `mensajes` table (src/airbnb-manager/db/database.py) -/

/-- Row of the `mensajes` table created by `init_db`.  `respondido` is the
SQLite BOOLEAN-affinity integer (default 0), `fecha_recibido` a timestamp. -/
structure Mensaje where
  id : Nat
  remitente : Option String := none
  asunto : Option String := none
  cuerpo : Option String := none
  fecha_recibido : Nat
  respondido : Nat := 0
  respuesta : Option String := none
  motivo_no_respuesta : Option String := none
deriving DecidableEq, Repr

/-- Python truthiness of the optional `motivo_no_respuesta` argument:
`None` and `""` are falsy. -/
def pyTruthyStr : Option String → Bool
  | none => false
  | some s => !(s == "")

/-- The row transformation of `marcar_mensaje_respondido` (database.py
lines 206-223) applied to the row matched by `WHERE id = ?`: when the
`motivo_no_respuesta` argument is truthy all three columns are SET,
otherwise only `respondido` and `respuesta`. -/
def markRow (resp : String) (motivo : Option String) (m : Mensaje) : Mensaje :=
  if pyTruthyStr motivo then
    { m with respondido := 1, respuesta := some resp, motivo_no_respuesta := motivo }
  else
    { m with respondido := 1, respuesta := some resp }

/-- `marcar_mensaje_respondido(mensaje_id, respuesta, motivo_no_respuesta=None)`:
the UPDATE applied to every row whose id matches. -/
def marcar_mensaje_respondido (db : List Mensaje) (mid : Nat) (resp : String)
    (motivo : Option String) : List Mensaje :=
  db.map (fun m => if m.id == mid then markRow resp motivo m else m)

/-! ## Object pool (src/airbnb-manager/utils/memory_optimizer.py) -/

/-- A pooled Python object: a list, a dict, a string, or a generic object
that may or may not define a `reset` method (its mutable state abstracted
as a `Nat`, with `reset` restoring the initial state 0). -/
inductive PyObj where
  | list (elems : List Nat)
  | dict (entries : List (Nat × Nat))
  | str (s : String)
  | withReset (state : Nat)
  | plain (state : Nat)
deriving DecidableEq, Repr

/-- `hasattr(obj, 'reset')` followed by `obj.reset()` when present —
this is all `ObjectPool.return_object` does to the object
(memory_optimizer.py lines 38-49): list/dict/str contents are untouched. -/
def resetIfHasReset : PyObj → PyObj
  | .withReset _ => .withReset 0
  | o => o

/-- `ObjectPool` state: the `deque` contents and `max_size`.  The factory
value stands for `self.factory()` (what `get` returns on an empty pool). -/
structure ObjectPool where
  factory : PyObj
  max_size : Nat
  pool : List PyObj
deriving DecidableEq, Repr

/-- `ObjectPool.get()`: popleft from the deque when non-empty, else a fresh
factory object; returns the object and the new pool state. -/
def ObjectPool.get : ObjectPool → PyObj × ObjectPool
  | { factory := f, max_size := m, pool := [] } =>
      (f, { factory := f, max_size := m, pool := [] })
  | { factory := f, max_size := m, pool := o :: rest } =>
      (o, { factory := f, max_size := m, pool := rest })

/-- `ObjectPool.return_object(obj)`: when the deque is below `max_size`,
reset-if-has-reset and append at the right; otherwise the object is
discarded. -/
def ObjectPool.return_object (p : ObjectPool) (o : PyObj) : ObjectPool :=
  if p.pool.length < p.max_size then
    { p with pool := p.pool ++ [resetIfHasReset o] }
  else
    p

/-- Module-level `return_to_pool(obj)` (memory_optimizer.py lines 385-394)
restricted to one pool: lists and dicts are `clear()`ed *before*
`return_object`; strings go back unmodified; other objects are not handled
by this function (left to the caller, modelled as a plain `return_object`). -/
def return_to_pool (p : ObjectPool) (o : PyObj) : ObjectPool :=
  match o with
  | .list _ => p.return_object (.list [])
  | .dict _ => p.return_object (.dict [])
  | .str s => p.return_object (.str s)
  | o => p.return_object o

/-- One client interaction with a pool, for stating invariants over arbitrary
call sequences: a `get()`, a direct `return_object(o)`, or a
`return_to_pool(o)`. -/
inductive PoolOp where
  | get
  | retObj (o : PyObj)
  | retToPool (o : PyObj)
deriving DecidableEq, Repr

/-- Run one operation against the pool state (the object handed out by
`get` is dropped: only the pool state matters for the invariants). -/
def poolStep (p : ObjectPool) : PoolOp → ObjectPool
  | .get => p.get.2
  | .retObj o => p.return_object o
  | .retToPool o => return_to_pool p o

/-- Run a call sequence left to right. -/
def runPool (p : ObjectPool) (ops : List PoolOp) : ObjectPool :=
  ops.foldl poolStep p

/-! ## Regular-expression engine (Python `re`, for the patterns used here).

The NLP engines match a fixed set of regular expressions against message
text.  `RTok` is the abstract syntax of exactly those regexes (literals,
character classes, greedy counted repetition, optional groups, ordered
alternation, numbered capture groups and the word-boundary assertion) and
`reRun` is a backtracking matcher with Python semantics: greedy
quantifiers with backtracking, leftmost match, alternation tried left to
right.  `reRun` is fuelled (`reFuel` is far larger than any search these
patterns can perform on a text, so the fuel never runs out); `reSearch`
is `re.search`, `reFindAll` is `re.findall` (non-overlapping scan,
returning the tuple of capture groups).  Case-insensitive matching
(`re.IGNORECASE`) is modelled by lowercasing the text first — all the
pattern literals involved are lowercase.  The Python classes `\d`, `\s`,
`\w` are modelled on the character repertoire this code base manipulates
(ASCII plus accented Spanish letters). -/

inductive CClass where
  | digit
  | space
  | wordc
  | letterES
  | slashDash
  | oneOf (cs : List Char)
deriving DecidableEq, Repr

def CClass.test : CClass → Char → Bool
  | .digit, c => '0' ≤ c && c ≤ '9'
  | .space, c => pySpace c
  | .wordc, c =>
      ('a' ≤ c && c ≤ 'z') || ('A' ≤ c && c ≤ 'Z') || ('0' ≤ c && c ≤ '9') || c == '_' ||
      [ 'á', 'é', 'í', 'ó', 'ú', 'ñ', 'ü', 'Á', 'É', 'Í', 'Ó', 'Ú', 'Ñ', 'Ü'].contains c
  | .letterES, c =>
      ('a' ≤ c && c ≤ 'z') || ('A' ≤ c && c ≤ 'Z') ||
      ['á', 'é', 'í', 'ó', 'ú', 'ñ'].contains c
  | .slashDash, c => c == '/' || c == '-'
  | .oneOf cs, c => cs.contains c

inductive RTok where
  | lit (cs : List Char)
  | one (k : CClass)
  | rep (k : CClass) (lo : Nat) (hi : Option Nat)
  | opt (ts : List RTok)
  | alts (bs : List (List RTok))
  | openG (n : Nat)
  | closeG (n : Nat)
  | wb

def litMatches (full : List Char) (pos : Nat) (cs : List Char) : Bool :=
  (full.drop pos).take cs.length == cs

def isWordAt (full : List Char) (i : Nat) : Bool :=
  match full.get? i with
  | some c => CClass.test .wordc c
  | none => false

def runLen (full : List Char) (pos : Nat) (k : CClass) : Nat :=
  ((full.drop pos).takeWhile k.test).length

inductive ReJob where
  | m (toks : List RTok) (pos : Nat) (pend : List (Nat × Nat)) (caps : List (Nat × Nat × Nat))
  | rtry (rest : List RTok) (pos : Nat) (pend : List (Nat × Nat))
      (caps : List (Nat × Nat × Nat)) (lo cnt : Nat)
  | ralts (bs : List (List RTok)) (rest : List RTok) (pos : Nat)
      (pend : List (Nat × Nat)) (caps : List (Nat × Nat × Nat))

def reRun (full : List Char) : Nat → ReJob → Option (Nat × List (Nat × Nat × Nat))
  | 0, _ => none
  | fuel + 1, .m toks pos pend caps =>
    match toks with
    | [] => some (pos, caps)
    | t :: rest =>
      match t with
      | .lit cs =>
          if litMatches full pos cs then reRun full fuel (.m rest (pos + cs.length) pend caps)
          else none
      | .one k =>
          match full.get? pos with
          | some c => if k.test c then reRun full fuel (.m rest (pos + 1) pend caps) else none
          | none => none
      | .rep k lo hi =>
          let m := runLen full pos k
          let upper := match hi with | none => m | some h => min m h
          if lo ≤ upper then reRun full fuel (.rtry rest pos pend caps lo upper) else none
      | .opt ts =>
          match reRun full fuel (.m (ts ++ rest) pos pend caps) with
          | some r => some r
          | none => reRun full fuel (.m rest pos pend caps)
      | .alts bs => reRun full fuel (.ralts bs rest pos pend caps)
      | .openG n => reRun full fuel (.m rest pos ((n, pos) :: pend) caps)
      | .closeG n =>
          match pend.find? (fun e => e.1 == n) with
          | some e => reRun full fuel (.m rest pos (pend.eraseP (fun x => x.1 == n))
              ((n, e.2, pos) :: caps))
          | none => none
      | .wb =>
          let prev := if pos == 0 then false else isWordAt full (pos - 1)
          if prev != isWordAt full pos then reRun full fuel (.m rest pos pend caps) else none
  | fuel + 1, .rtry rest pos pend caps lo cnt =>
    match reRun full fuel (.m rest (pos + cnt) pend caps) with
    | some r => some r
    | none => if cnt ≤ lo then none else reRun full fuel (.rtry rest pos pend caps lo (cnt - 1))
  | fuel + 1, .ralts bs rest pos pend caps =>
    match bs with
    | [] => none
    | b :: bs' =>
      match reRun full fuel (.m (b ++ rest) pos pend caps) with
      | some r => some r
      | none => reRun full fuel (.ralts bs' rest pos pend caps)

def reFuel (n : Nat) : Nat := (n + 4) * (n + 4) * 16

def reMatchAt (full : List Char) (toks : List RTok) (pos : Nat) :
    Option (Nat × List (Nat × Nat × Nat)) :=
  reRun full (reFuel full.length) (.m toks pos [] [])

def reSearchFrom (full : List Char) (toks : List RTok) :
    Nat → Nat → Option (Nat × Nat) 
  | 0, _ => none
  | att + 1, pos =>
    match reMatchAt full toks pos with
    | some (e, _) => some (pos, e)
    | none => if full.length ≤ pos then none else reSearchFrom full toks att (pos + 1)

def reSearch (toks : List RTok) (s : String) : Bool :=
  (reSearchFrom s.data toks (s.data.length + 1) 0).isSome

def groupStr (full : List Char) (caps : List (Nat × Nat × Nat)) (n : Nat) : List Char :=
  match caps.find? (fun e => e.1 == n) with
  | some e => (full.drop e.2.1).take (e.2.2 - e.2.1)
  | none => []

def reFindAllAux (full : List Char) (toks : List RTok) (ng : Nat) :
    Nat → Nat → List (List (List Char))
  | 0, _ => []
  | att + 1, pos =>
    match reMatchAt full toks pos with
    | some (e, caps) =>
        ((List.range ng).map (fun i => groupStr full caps (i + 1))) ::
        (if pos < e then reFindAllAux full toks ng att e
         else if full.length ≤ pos then [] else reFindAllAux full toks ng att (pos + 1))
    | none => if full.length ≤ pos then [] else reFindAllAux full toks ng att (pos + 1)

def reFindAll (toks : List RTok) (ng : Nat) (s : String) : List (List (List Char)) :=
  reFindAllAux s.data toks ng (s.data.length + 2) 0


/-! ## Date-pattern tokenisations (core/nlp_engine.py `extract_dates`,
lines 259-338): the four inline pattern families the class method matches.
`datePat1` is `(?:del?\s+)?(\d{1,2})\s+(?:al?\s+)?(\d{1,2})\s+de\s+([a-zA-Z..]+)`,
`datePat2` the `desde .. hasta ..` family, `datePat3` the `por N dias`
family and `datePatStd` the numeric `dd/mm/yyyy`-or-`dd-mm-yyyy` family. -/

def datePat1 : List RTok :=
  [.opt [.lit "de".data, .opt [.lit "l".data], .rep .space 1 none],
   .openG 1, .rep .digit 1 (some 2), .closeG 1,
   .rep .space 1 none,
   .opt [.lit "a".data, .opt [.lit "l".data], .rep .space 1 none],
   .openG 2, .rep .digit 1 (some 2), .closeG 2,
   .rep .space 1 none, .lit "de".data, .rep .space 1 none,
   .openG 3, .rep .letterES 1 none, .closeG 3]

def datePat2 : List RTok :=
  [.opt [.lit "desde".data, .rep .space 1 none, .lit "el".data, .rep .space 1 none],
   .openG 1, .rep .digit 1 (some 2), .closeG 1,
   .rep .space 1 none, .lit "de".data, .rep .space 1 none,
   .openG 2, .rep .letterES 1 none, .closeG 2,
   .rep .space 1 none,
   .opt [.lit "hasta".data, .rep .space 1 none, .lit "el".data, .rep .space 1 none],
   .openG 3, .rep .digit 1 (some 2), .closeG 3,
   .rep .space 1 none, .lit "de".data, .rep .space 1 none,
   .openG 4, .rep .letterES 1 none, .closeG 4]

def datePat3 : List RTok :=
  [.opt [.lit "desde".data, .rep .space 1 none, .lit "el".data, .rep .space 1 none],
   .openG 1, .rep .digit 1 (some 2), .closeG 1,
   .rep .space 1 none, .lit "de".data, .rep .space 1 none,
   .openG 2, .rep .letterES 1 none, .closeG 2,
   .rep .space 1 none, .lit "por".data, .rep .space 1 none,
   .openG 3, .rep .digit 1 none, .closeG 3,
   .rep .space 1 none,
   .alts [[.lit "d".data, .one (.oneOf ['i', 'í']), .lit "a".data, .opt [.lit "s".data]],
          [.lit "noche".data, .opt [.lit "s".data]]]]

def datePatStd : List RTok :=
  [.openG 1, .rep .digit 1 (some 2), .one .slashDash, .rep .digit 1 (some 2),
   .one .slashDash, .rep .digit 2 (some 4), .closeG 1]

def confPat1 : List RTok :=
  [.wb, .openG 1,
   .alts [[.lit "confirmo".data], [.lit "reservo".data], [.lit "acepto".data],
          [.lit "ok".data], [.lit "s".data, .one (.oneOf ['i', 'í'])],
          [.lit "perfecto".data], [.lit "genial".data], [.lit "bien".data]],
   .closeG 1, .wb]

def confPat2 : List RTok :=
  [.wb, .openG 1,
   .alts [[.lit "tomamos".data], [.lit "reservamos".data],
          [.lit "me".data, .rep .space 1 none, .lit "quedo".data],
          [.lit "nos".data, .rep .space 1 none, .lit "quedamos".data]],
   .closeG 1, .wb]

def confPat3 : List RTok :=
  [.wb, .openG 1, .alts [[.lit "quiero".data], [.lit "deseo".data]], .closeG 1,
   .rep .space 1 none,
   .alts [[.lit "reservar".data], [.lit "tomar".data], [.lit "quedarme".data],
          [.lit "hospedarme".data]],
   .wb]

def confPatOpt : List RTok :=
  [.wb,
   .alts [[.lit "confirmo".data], [.lit "confirmado".data], [.lit "ok".data],
          [.lit "sí".data], [.lit "si".data], [.lit "vale".data],
          [.lit "perfecto".data], [.lit "de acuerdo".data]],
   .wb]


/-! ## Confirmation-pattern tokenisations.

`confPat1`-`confPat3` are `_build_confirmation_patterns`
(core/nlp_engine.py lines 119-124); `confPatOpt` is the pre-compiled
`'confirmation'` pattern of `OptimizedNLPEngine._compile_patterns`
(core/optimized_nlp.py lines 73-84). -/


/-! ## Date helpers for `extract_dates`.

`spanish_months` and `_get_appropriate_year` are the month dictionary and
year-rollover rule of `NLPEngine`; `days_from_civil`/`civil_from_days`
implement proleptic-Gregorian date arithmetic (for the
`strptime`/`timedelta`/`strftime` in pattern 3); `normalize_date` is
`_normalize_date` (strptime against the five formats, then the
`' de '`-split fallback); `pat1Dates` .. `pat3Dates` are the per-match
bodies of the three `for match in matchesN` loops (an `int()` failure or a
date-construction failure skips the match, an unknown month appends
nothing). -/

def spanish_months : List (String × Nat) :=
  [("enero", 1), ("febrero", 2), ("marzo", 3), ("abril", 4),
   ("mayo", 5), ("junio", 6), ("julio", 7), ("agosto", 8),
   ("septiembre", 9), ("octubre", 10), ("noviembre", 11), ("diciembre", 12)]

def monthNum? (name : String) : Option Nat :=
  (spanish_months.find? (fun p => p.1 == name)).map (fun p => p.2)

def get_appropriate_year (cm cy mn : Nat) : Nat :=
  if mn < cm ∧ 10 ≤ cm then cy + 1 else cy

def isDigit (c : Char) : Bool := '0' ≤ c && c ≤ '9'

def digitsVal (cs : List Char) : Nat := cs.foldl (fun a c => 10 * a + (c.toNat - 48)) 0

def parseIntDigits (cs : List Char) : Option Nat :=
  if cs ≠ [] ∧ cs.all isDigit then some (digitsVal cs) else none

def pad2 (n : Nat) : String := if n < 10 then "0" ++ toString n else toString n

def pad4 (n : Nat) : String :=
  if n < 10 then "000" ++ toString n else if n < 100 then "00" ++ toString n
  else if n < 1000 then "0" ++ toString n else toString n

def dateYMD (y m d : Nat) : String := toString y ++ "-" ++ pad2 m ++ "-" ++ pad2 d

def isLeap (y : Nat) : Bool := (y % 4 == 0 && y % 100 != 0) || y % 400 == 0

def daysInMonth (y m : Nat) : Nat :=
  if m == 2 then (if isLeap y then 29 else 28)
  else if [4, 6, 9, 11].contains m then 30 else 31

def days_from_civil (y m d : Int) : Int :=
  let y' := if m ≤ 2 then y - 1 else y
  let era := (if 0 ≤ y' then y' else y' - 399) / 400
  let yoe := y' - era * 400
  let mp := (m + 9) % 12
  let doy := (153 * mp + 2) / 5 + d - 1
  let doe := yoe * 365 + yoe / 4 - yoe / 100 + doy
  era * 146097 + doe - 719468

def civil_from_days (z0 : Int) : Int × Int × Int :=
  let z := z0 + 719468
  let era := (if 0 ≤ z then z else z - 146096) / 146097
  let doe := z - era * 146097
  let yoe := (doe - doe / 1460 + doe / 36524 - doe / 146096) / 365
  let y := yoe + era * 400
  let doy := doe - (365 * yoe + yoe / 4 - yoe / 100)
  let mp := (5 * doy + 2) / 153
  let d := doy - (153 * mp + 2) / 5 + 1
  let m := mp + (if mp < 10 then 3 else -9)
  (y + (if m ≤ 2 then 1 else 0), m, d)

def parseDayTok (cs : List Char) : Option Nat :=
  match parseIntDigits cs with
  | some v => if (cs.length = 1 ∨ cs.length = 2) ∧ 1 ≤ v ∧ v ≤ 31 then some v else none
  | none => none

def parseMonthTok (cs : List Char) : Option Nat :=
  match parseIntDigits cs with
  | some v => if (cs.length = 1 ∨ cs.length = 2) ∧ 1 ≤ v ∧ v ≤ 12 then some v else none
  | none => none

def parseY4 (cs : List Char) : Option Nat :=
  match parseIntDigits cs with
  | some v => if cs.length = 4 then some v else none
  | none => none

def parseY2 (cs : List Char) : Option Nat :=
  match parseIntDigits cs with
  | some v => if cs.length = 2 then some (if v ≤ 68 then 2000 + v else 1900 + v) else none
  | none => none

def splitOnChar (sep : Char) (cs : List Char) : List (List Char) :=
  match cs with
  | [] => [[]]
  | c :: rest =>
      let r := splitOnChar sep rest
      if c = sep then [] :: r
      else match r with
        | [] => [[c]]
        | h :: t => (c :: h) :: t

def tryDMY (sep : Char) (twoDigitYear : Bool) (cs : List Char) : Option (Nat × Nat × Nat) :=
  match splitOnChar sep cs with
  | [dd, mm, yy] =>
      match parseDayTok dd, parseMonthTok mm,
          (if twoDigitYear then parseY2 yy else parseY4 yy) with
      | some d, some m, some y => if d ≤ daysInMonth y m then some (y, m, d) else none
      | _, _, _ => none
  | _ => none

def tryYMD (cs : List Char) : Option (Nat × Nat × Nat) :=
  match splitOnChar '-' cs with
  | [yy, mm, dd] =>
      match parseY4 yy, parseMonthTok mm, parseDayTok dd with
      | some y, some m, some d => if d ≤ daysInMonth y m then some (y, m, d) else none
      | _, _, _ => none
  | _ => none

def listContainsSub (hay sub : List Char) : Bool :=
  (List.range (hay.length + 1)).any (fun i => (hay.drop i).take sub.length == sub)

def splitOnSub (sep : List Char) (cs : List Char) (fuel : Nat) : List (List Char) :=
  match fuel with
  | 0 => [cs]
  | fuel + 1 =>
      match (List.range (cs.length + 1)).find?
          (fun i => (cs.drop i).take sep.length == sep) with
      | some i => cs.take i :: splitOnSub sep (cs.drop (i + sep.length)) fuel
      | none => [cs]

def pyIntParse (s : String) : Option Int :=
  let cs := (s.data.dropWhile pySpace).rdropWhile pySpace
  match cs with
  | '-' :: rest => if rest ≠ [] ∧ rest.all isDigit then some (-(digitsVal rest : Int)) else none
  | '+' :: rest => if rest ≠ [] ∧ rest.all isDigit then some (digitsVal rest : Int) else none
  | rest => if rest ≠ [] ∧ rest.all isDigit then some (digitsVal rest : Int) else none

def padInt2 (n : Int) : String :=
  if 0 ≤ n then pad2 n.toNat
  else "-" ++ toString (-n)

def normalize_date (cm cy : Nat) (date_str : String) : Option String :=
  let cs := date_str.data
  match tryDMY '/' false cs with
  | some (y, m, d) => some (pad4 y ++ "-" ++ pad2 m ++ "-" ++ pad2 d)
  | none =>
  match tryDMY '-' false cs with
  | some (y, m, d) => some (pad4 y ++ "-" ++ pad2 m ++ "-" ++ pad2 d)
  | none =>
  match tryYMD cs with
  | some (y, m, d) => some (pad4 y ++ "-" ++ pad2 m ++ "-" ++ pad2 d)
  | none =>
  match tryDMY '/' true cs with
  | some (y, m, d) => some (pad4 y ++ "-" ++ pad2 m ++ "-" ++ pad2 d)
  | none =>
  match tryDMY '-' true cs with
  | some (y, m, d) => some (pad4 y ++ "-" ++ pad2 m ++ "-" ++ pad2 d)
  | none =>
  if listContainsSub cs "de".data then
    match splitOnSub " de ".data cs (cs.length + 1) with
    | [dayPart, monthPart] =>
        match monthNum? (pyLower (String.mk monthPart)) with
        | some mn =>
            match pyIntParse (String.mk dayPart) with
            | some d => some (toString (get_appropriate_year cm cy mn) ++ "-" ++
                pad2 mn ++ "-" ++ padInt2 d)
            | none => none
        | none => none
    | _ => none
  else none

def pat1Dates (cm cy : Nat) (g : List (List Char)) : List String :=
  match parseIntDigits (g.getD 0 []), parseIntDigits (g.getD 1 []) with
  | some ds, some de_ =>
      match monthNum? (pyLower (String.mk (g.getD 2 []))) with
      | some mn =>
          let y := get_appropriate_year cm cy mn
          [dateYMD y mn ds, dateYMD y mn de_]
      | none => []
  | _, _ => []

def pat2Dates (cm cy : Nat) (g : List (List Char)) : List String :=
  match parseIntDigits (g.getD 0 []), parseIntDigits (g.getD 2 []) with
  | some ds, some de_ =>
      match monthNum? (pyLower (String.mk (g.getD 1 []))),
          monthNum? (pyLower (String.mk (g.getD 3 []))) with
      | some mns, some mne =>
          [dateYMD (get_appropriate_year cm cy mns) mns ds,
           dateYMD (get_appropriate_year cm cy mne) mne de_]
      | _, _ => []
  | _, _ => []

def pat3Dates (cm cy : Nat) (g : List (List Char)) : List String :=
  match parseIntDigits (g.getD 0 []), parseIntDigits (g.getD 2 []) with
  | some ds, some dys =>
      match monthNum? (pyLower (String.mk (g.getD 1 []))) with
      | some mn =>
          let y := get_appropriate_year cm cy mn
          if 1 ≤ ds ∧ ds ≤ daysInMonth y mn ∧ 1000 ≤ y ∧ y ≤ 9999 then
            let e := civil_from_days (days_from_civil y mn ds + ((dys : Int) - 1))
            if 1 ≤ e.1 ∧ e.1 ≤ 9999 then
              [dateYMD y mn ds,
               pad4 e.1.toNat ++ "-" ++ pad2 e.2.1.toNat ++ "-" ++ pad2 e.2.2.toNat]
            else []
          else []
      | none => []
  | _, _ => []

def charListLe : List Char → List Char → Bool
  | [], _ => true
  | _ :: _, [] => false
  | a :: as_, b :: bs => if a = b then charListLe as_ bs else decide (a < b)

def pyStrLe (a b : String) : Bool := charListLe a.data b.data

def insertSorted (x : String) : List String → List String
  | [] => [x]
  | y :: ys => if pyStrLe x y then x :: y :: ys else y :: insertSorted x ys

def sortStrings (l : List String) : List String := l.foldr insertSorted []

def extract_dates (cm cy : Nat) (text : String) : List String :=
  let text_lower := pyLower text
  let found :=
    ((reFindAll datePat1 3 text_lower).flatMap (pat1Dates cm cy)) ++
    ((reFindAll datePat2 4 text_lower).flatMap (pat2Dates cm cy)) ++
    ((reFindAll datePat3 3 text_lower).flatMap (pat3Dates cm cy)) ++
    ((reFindAll datePatStd 1 text).map (fun g => String.mk (g.getD 0 [])))
  let normalized := found.filterMap (normalize_date cm cy)
  sortStrings normalized.dedup

def reservation_context : List String :=
  ["reserva", "propiedad", "casa", "alojamiento", "airbnb"]

def confirmation_patterns : List (List RTok) := [confPat1, confPat2, confPat3]

def detect_confirmation (text : String) : Bool :=
  let text_lower := pyLower text
  confirmation_patterns.any (fun p =>
    reSearch p text_lower &&
    reservation_context.any (fun w => listContainsSub text_lower.data w.data))

def detect_confirmation_optimized (text : String) : Bool :=
  reSearch confPatOpt (pyLower text)


/-- Reading a field of a conversation row by its column name (the dict
access `conversation.get(field)` after `get_conversation`). -/
def getConversationField (c : Conversation) (field : String) : Option PyVal :=
  if field = "nombre_cliente" then c.nombre_cliente
  else if field = "propiedad" then c.propiedad
  else if field = "propiedad_id" then c.propiedad_id
  else if field = "check_in" then c.check_in
  else if field = "check_out" then c.check_out
  else if field = "numero_huespedes" then c.numero_huespedes
  else if field = "correo_cliente" then c.correo_cliente
  else if field = "telefono_cliente" then c.telefono_cliente
  else if field = "confirmacion" then c.confirmacion
  else if field = "estado" then c.estado
  else none

/-- The six names `get_missing_fields` checks (note `propiedad_id` is not
among them). -/
def requiredFields : List String :=
  ["nombre_cliente", "propiedad", "check_in", "check_out",
   "numero_huespedes", "correo_cliente"]

/-- The `entre el D1 y D2 de MONTH` regex of `_build_date_patterns`
(core/nlp_engine.py line 83):
`entre\s+el\s+(\d{1,2})\s+y\s+(\d{1,2})\s+de\s+([a-zA-Z..]+)`. -/
def entrePat : List RTok :=
  [.lit "entre".data, .rep .space 1 none, .lit "el".data, .rep .space 1 none,
   .openG 1, .rep .digit 1 (some 2), .closeG 1,
   .rep .space 1 none, .lit "y".data, .rep .space 1 none,
   .openG 2, .rep .digit 1 (some 2), .closeG 2,
   .rep .space 1 none, .lit "de".data, .rep .space 1 none,
   .openG 3, .rep .letterES 1 none, .closeG 3]

/-- The `D de MONTH` regex closing `_build_date_patterns` (line 89). -/
def dayMonthPat : List RTok :=
  [.openG 1, .rep .digit 1 (some 2), .closeG 1,
   .rep .space 1 none, .lit "de".data, .rep .space 1 none,
   .openG 2, .rep .letterES 1 none, .closeG 2]

/-- `NLPEngine._build_date_patterns` (core/nlp_engine.py lines 70-90): the
six regex families stored in `self.date_patterns` at construction time.
The class method `extract_dates` never reads `self.date_patterns` — it
matches only its four inline families. -/
def build_date_patterns : List (List RTok) :=
  [datePat1, datePat2, datePat3, entrePat, datePatStd, dayMonthPat]

/-! # Helper lemmas -/

theorem dropWhile_append_all {p : Char → Bool} {a : List Char} (b : List Char)
    (h : ∀ c ∈ a, p c = true) :
    List.dropWhile p (a ++ b) = List.dropWhile p b := by
  induction a with
  | nil => simp
  | cons x xs ih =>
    have hx := h x (by simp)
    simp only [List.cons_append, List.dropWhile_cons, hx, if_true]
    exact ih fun c hc => h c (by simp [hc])

theorem rdropWhile_append_cons {p : Char → Bool} {c : Char} (a b : List Char)
    (hc : p c = false) :
    List.rdropWhile p (a ++ c :: b) = a ++ c :: List.rdropWhile p b := by
  unfold List.rdropWhile
  rw [List.reverse_append, List.reverse_cons]
  rw [List.append_assoc, List.dropWhile_append]
  by_cases hb : (List.dropWhile p b.reverse).isEmpty
  · simp only [hb, if_true]
    rw [List.isEmpty_iff] at hb
    simp [List.dropWhile_cons, hc, hb]
  · simp only [hb, if_false]
    rw [List.isEmpty_iff] at hb
    simp [List.reverse_append]

theorem dropWhile_rdropWhile_comm {p : Char → Bool} (l : List Char) :
    List.dropWhile p (List.rdropWhile p l) = List.rdropWhile p (List.dropWhile p l) := by
  rcases h : List.dropWhile p l with _ | ⟨c, t⟩
  · rw [List.dropWhile_eq_nil_iff] at h
    have : List.rdropWhile p l = [] := by
      rw [List.rdropWhile_eq_nil_iff]
      exact h
    simp [this]
  · have hc : p c = false := by
      have hne : List.dropWhile p l ≠ [] := by simp [h]
      have h1 := List.head_dropWhile_not p l hne
      have h2 : (List.dropWhile p l).head hne = c := by simp [h]
      rw [h2] at h1
      simpa using h1
    have hdecomp : List.takeWhile p l ++ c :: t = l := by
      rw [← h, List.takeWhile_append_dropWhile]
    have htw : ∀ x ∈ List.takeWhile p l, p x = true := fun x hx => List.mem_takeWhile_imp hx
    calc List.dropWhile p (List.rdropWhile p l)
        = List.dropWhile p (List.rdropWhile p (List.takeWhile p l ++ c :: t)) := by rw [hdecomp]
      _ = List.dropWhile p (List.takeWhile p l ++ c :: List.rdropWhile p t) := by
            rw [rdropWhile_append_cons _ _ hc]
      _ = List.dropWhile p (c :: List.rdropWhile p t) := dropWhile_append_all _ htw
      _ = c :: List.rdropWhile p t := by simp [List.dropWhile_cons, hc]
      _ = List.rdropWhile p (c :: t) := by
            have := rdropWhile_append_cons (p := p) [] t hc
            simpa using this.symm

theorem pyLowerChar_space {c : Char} (h : pySpace c = true) : pyLowerChar c = c := by
  have hm : c ∈ " \t\n\r\x0b\x0c".data := by
    simpa [pySpace] using h
  fin_cases hm <;> decide

theorem pyLower_data_append (a b : String) :
    (pyLower (a ++ b)).data = (pyLower a).data ++ (pyLower b).data := by
  simp [pyLower, String.data_append]

theorem cleanSubject_tagged (w1 p' w2 s : String) (tag : List Char)
    (htag : tag = ['r', 'e', ':'] ∨ tag = ['f', 'w', ':'] ∨ tag = ['f', 'w', 'd', ':'])
    (hp : (pyLower p').data = tag)
    (hw1 : ∀ c ∈ w1.data, pySpace c = true) (hw2 : ∀ c ∈ w2.data, pySpace c = true)
    (hs : stripRFW (pyStripList (pyLower s).data) = pyStripList (pyLower s).data) :
    cleanSubject (w1 ++ p' ++ w2 ++ s) = cleanSubject s := by
  have hlw1 : ∀ c ∈ (pyLower w1).data, pySpace c = true := by
    intro c hc
    simp only [pyLower] at hc
    obtain ⟨x, hx, rfl⟩ := List.mem_map.mp hc
    rw [pyLowerChar_space (hw1 x hx)]
    exact hw1 x hx
  have hlw2 : ∀ c ∈ (pyLower w2).data, pySpace c = true := by
    intro c hc
    simp only [pyLower] at hc
    obtain ⟨x, hx, rfl⟩ := List.mem_map.mp hc
    rw [pyLowerChar_space (hw2 x hx)]
    exact hw2 x hx
  have hdata : (pyLower (w1 ++ p' ++ w2 ++ s)).data =
      (pyLower w1).data ++ (tag ++ ((pyLower w2).data ++ (pyLower s).data)) := by
    rw [pyLower_data_append, pyLower_data_append, pyLower_data_append, hp]
    simp [List.append_assoc]
  unfold cleanSubject
  rw [hdata]
  set lw2 := (pyLower w2).data
  set ls := (pyLower s).data
  have h1 : List.dropWhile pySpace (tag ++ (lw2 ++ ls)) = tag ++ (lw2 ++ ls) := by
    rcases htag with rfl | rfl | rfl <;> simp [List.dropWhile_cons, pySpace]
  have h2 : List.rdropWhile pySpace (tag ++ (lw2 ++ ls)) =
      tag ++ List.rdropWhile pySpace (lw2 ++ ls) := by
    rcases htag with rfl | rfl | rfl
    · exact rdropWhile_append_cons (p := pySpace) (c := ':') ['r', 'e'] (lw2 ++ ls) (by decide)
    · exact rdropWhile_append_cons (p := pySpace) (c := ':') ['f', 'w'] (lw2 ++ ls) (by decide)
    · exact rdropWhile_append_cons (p := pySpace) (c := ':') ['f', 'w', 'd'] (lw2 ++ ls) (by decide)
  have hstrip : pyStripList ((pyLower w1).data ++ (tag ++ (lw2 ++ ls))) =
      tag ++ List.rdropWhile pySpace (lw2 ++ ls) := by
    unfold pyStripList
    rw [dropWhile_append_all _ hlw1, h1, h2]
  rw [hstrip]
  have hmid : stripRFW (tag ++ List.rdropWhile pySpace (lw2 ++ ls)) =
      List.dropWhile pySpace (List.rdropWhile pySpace (lw2 ++ ls)) := by
    rcases htag with rfl | rfl | rfl <;> simp [stripRFW]
  rw [hmid, dropWhile_rdropWhile_comm, dropWhile_append_all _ hlw2, hs]
  rfl

theorem leBytes_length (n k : Nat) : (leBytes n k).length = k := by
  simp [leBytes]

theorem md5Digest_length (msg : List Nat) : (md5Digest msg).length = 16 := by
  simp [md5Digest, leBytes_length]

theorem flatMap_byteHex_length (l : List Nat) : (l.flatMap byteHex).length = 2 * l.length := by
  induction l with
  | nil => simp
  | cons x xs ih => simp [byteHex, ih]; ring

theorem md5HexDigest_length (msg : List Nat) : (md5HexDigest msg).length = 32 := by
  rw [md5HexDigest, flatMap_byteHex_length, md5Digest_length]

theorem hexChars_getD_mem (i : Nat) : hexChars.getD i '0' ∈ hexChars := by
  by_cases h : i < hexChars.length
  · rw [List.getD_eq_getElem _ _ h]
    exact List.getElem_mem h
  · rw [List.getD_eq_default _ _ (by omega)]
    decide

theorem md5HexDigest_mem {msg : List Nat} {c : Char} (hc : c ∈ md5HexDigest msg) :
    c ∈ hexChars := by
  rw [md5HexDigest] at hc
  obtain ⟨b, -, hb⟩ := List.mem_flatMap.mp hc
  simp only [byteHex, List.mem_cons, List.not_mem_nil, or_false] at hb
  rcases hb with h | h
  · exact h ▸ hexChars_getD_mem _
  · exact h ▸ hexChars_getD_mem _

theorem get_conversation_id_length (r a : String) : (get_conversation_id r a).length = 12 := by
  have h := md5HexDigest_length (utf8Encode
    (String.mk ((pyLower r).data ++ ['|'] ++ cleanSubject a)))
  simp only [get_conversation_id, String.length, List.length_take]
  have h12 : 12 ≤ (md5HexDigest (utf8Encode
      (String.mk ((pyLower r).data ++ ['|'] ++ cleanSubject a)))).length := by
    rw [h]
    omega
  simp only [String.mk] at h12 ⊢
  omega

theorem get_conversation_id_hex (r a : String) :
    ∀ c ∈ (get_conversation_id r a).data, c ∈ hexChars := by
  intro c hc
  simp only [get_conversation_id] at hc
  exact md5HexDigest_mem (List.mem_of_mem_take hc)

/-! # Claims -/

/-- C1: for every property id and database state,
`verificar_disponibilidad(propiedad_id, fecha_inicio, fecha_fin)` returns
true iff no reservation for that property in status `confirmada` or
`pendiente` satisfies `NOT (fecha_fin < fecha_inicio_query OR fecha_inicio
> fecha_fin_query)`; with one `pendiente` reservation 2024-10-10 .. 2024-10-15
it returns false both for the overlapping request 2024-10-12 .. 2024-10-20
and for the boundary-touching request 2024-10-05 .. 2024-10-10. -/
theorem verificar_disponibilidad_spec :
    (∀ (α : Type) [LinearOrder α] (db : List (Reserva α)) (pid : Nat) (fi ff : α),
      verificar_disponibilidad db pid fi ff = true ↔
        ¬ ∃ r ∈ db, r.propiedad_id = pid ∧
          (r.estado = "confirmada" ∨ r.estado = "pendiente") ∧
          ¬ (r.fecha_fin < fi ∨ r.fecha_inicio > ff)) ∧
    verificar_disponibilidad dbOnePendiente 1 20241012 20241020 = false ∧
    verificar_disponibilidad dbOnePendiente 1 20241005 20241010 = false := by
  refine ⟨?_, by decide, by decide⟩
  intro α _ db pid fi ff
  simp [verificar_disponibilidad, List.length_eq_zero, List.filter_eq_nil_iff,
        matchesDisponQuery, not_or, decide_eq_true_eq]

/-- C4 counterexample: the primary check and the optimized check do NOT
always return the same boolean.  With one `pendiente` reservation
2024-10-10 .. 2024-10-15 and the boundary-touching query
2024-10-15 .. 2024-10-20, the primary formula reports a conflict
(false = unavailable) while the optimized three-clause formula reports no
conflict (true = available). -/
theorem dispon_optimized_counterexample :
    ¬ (verificar_disponibilidad dbOnePendiente 1 20241015 20241020 =
       verificar_disponibilidad_optimized dbOnePendiente 1 20241015 20241020) := by
  decide

/-- C4 amended: for well-formed intervals, statuses drawn from
{pendiente, confirmada, cancelada}, and no non-cancelled reservation of the
property touching the query exactly at an endpoint (`fecha_fin =` query
start or `fecha_inicio =` query end), `verificar_disponibilidad_optimized`
(empty cache) equals `verificar_disponibilidad`; on boundary-touching
states the two differ as the counterexample shows. -/
theorem dispon_optimized_agrees (α : Type) [LinearOrder α]
    (db : List (Reserva α)) (pid : Nat) (fi ff : α)
    (hq : fi ≤ ff)
    (hwf : ∀ r ∈ db, r.fecha_inicio ≤ r.fecha_fin)
    (hst : ∀ r ∈ db, r.estado = "pendiente" ∨ r.estado = "confirmada" ∨
      r.estado = "cancelada")
    (hnt : ∀ r ∈ db, r.propiedad_id = pid → r.estado ≠ "cancelada" →
      r.fecha_fin ≠ fi ∧ r.fecha_inicio ≠ ff) :
    verificar_disponibilidad_optimized db pid fi ff =
      verificar_disponibilidad db pid fi ff := by
  have hpt : ∀ r ∈ db, matchesDisponOptQuery pid fi ff r = matchesDisponQuery pid fi ff r := by
    intro r hr
    have h1 := hwf r hr
    have h2 := hst r hr
    by_cases hp : r.propiedad_id = pid
    · by_cases hc : r.estado = "cancelada"
      · simp [matchesDisponOptQuery, matchesDisponQuery, hc]
      · have hpc : r.estado = "confirmada" ∨ r.estado = "pendiente" := by tauto
        obtain ⟨hne1, hne2⟩ := hnt r hr hp hc
        have hfi : (r.estado == "confirmada" || r.estado == "pendiente") = true := by
          rcases hpc with h | h <;> simp [h]
        have hcc : (r.estado == "cancelada") = false := by simp [hc]
        rw [Bool.eq_iff_iff]
        simp only [matchesDisponOptQuery, matchesDisponQuery, hfi, hcc,
          Bool.and_eq_true, Bool.or_eq_true, Bool.not_eq_true', Bool.and_true,
          Bool.true_and, decide_eq_true_eq, Bool.or_eq_false_iff,
          decide_eq_false_iff_not, beq_iff_eq, hp, not_lt, not_or]
        constructor
        · rintro ⟨-, (⟨hA, hB⟩ | ⟨hA, hB⟩) | ⟨hA, hB⟩⟩
          · exact ⟨trivial, le_of_lt hB, le_trans hA hq⟩
          · exact ⟨trivial, le_trans hq hB, le_of_lt hA⟩
          · exact ⟨trivial, le_trans hA h1, le_trans h1 hB⟩
        · rintro ⟨-, hfin, hini⟩
          refine ⟨⟨trivial, trivial⟩, ?_⟩
          have hfin' : fi < r.fecha_fin := lt_of_le_of_ne hfin (Ne.symm hne1)
          have hini' : r.fecha_inicio < ff := lt_of_le_of_ne hini hne2
          rcases le_or_lt r.fecha_inicio fi with h | h
          · exact Or.inl (Or.inl ⟨h, hfin'⟩)
          · rcases le_or_lt r.fecha_fin ff with h' | h'
            · exact Or.inr ⟨le_of_lt h, h'⟩
            · exact Or.inl (Or.inr ⟨hini', le_of_lt h'⟩)
    · have hpf : (r.propiedad_id == pid) = false := by simp [hp]
      simp [matchesDisponOptQuery, matchesDisponQuery, hpf]
  unfold verificar_disponibilidad_optimized verificar_disponibilidad
  rw [List.filter_congr hpt]

/-- Witness for `dispon_optimized_agrees`: on the non-touching query
2024-10-01 .. 2024-10-05 against the `pendiente` 2024-10-10 .. 2024-10-15
reservation both checks agree (both available). -/
theorem dispon_optimized_agrees_witness :
    verificar_disponibilidad_optimized dbOnePendiente 1 20241001 20241005 =
      verificar_disponibilidad dbOnePendiente 1 20241001 20241005 :=
  dispon_optimized_agrees Nat dbOnePendiente 1 20241001 20241005 (by decide)
    (by decide) (by decide) (by decide)

/-- C2 counterexample: the id is NOT invariant under prepending a
`"Re: "` prefix to an arbitrary subject.  For the subject
`"Re: Reserva Casa Playa"` (itself already carrying a reply tag) the
prefixed and unprefixed subjects hash to different ids, because the code
strips only one leading tag. -/
theorem get_conversation_id_counterexample :
    get_conversation_id "maria@gmail.com" ("Re: " ++ "Re: Reserva Casa Playa") ≠
      get_conversation_id "maria@gmail.com" "Re: Reserva Casa Playa" := by
  decide

/-- C2 amended: `get_conversation_id` and its file-backed analog
`generate_conversation_id` are the same pure function; every id has
exactly 12 characters, all lowercase hex; the id is invariant under
changing the case of the sender; it is invariant under prepending one
`re:` / `fw:` / `fwd:` tag (any letter case, arbitrary surrounding
whitespace) PROVIDED the lowercased-stripped subject does not itself begin
with such a tag (the counterexample shows the proviso is necessary); and
the spec's example pair hashes identically. -/
theorem get_conversation_id_spec :
    (∀ e a : String, generate_conversation_id e a = get_conversation_id e a) ∧
    (∀ r a : String, (get_conversation_id r a).length = 12 ∧
      ∀ c ∈ (get_conversation_id r a).data, c ∈ hexChars) ∧
    (∀ r r' a : String, pyLower r = pyLower r' →
      get_conversation_id r a = get_conversation_id r' a) ∧
    (∀ (r s w1 p' w2 : String) (tag : List Char),
      (tag = ['r', 'e', ':'] ∨ tag = ['f', 'w', ':'] ∨ tag = ['f', 'w', 'd', ':']) →
      (pyLower p').data = tag →
      (∀ c ∈ w1.data, pySpace c = true) →
      (∀ c ∈ w2.data, pySpace c = true) →
      stripRFW (pyStripList (pyLower s).data) = pyStripList (pyLower s).data →
      get_conversation_id r (w1 ++ p' ++ w2 ++ s) = get_conversation_id r s) ∧
    get_conversation_id "Maria@Gmail.com" "Re: Reserva Casa Playa" =
      get_conversation_id "maria@gmail.com" "reserva casa playa" := by
  refine ⟨fun e a => rfl, fun r a => ⟨get_conversation_id_length r a,
    get_conversation_id_hex r a⟩, ?_, ?_, by decide⟩
  · intro r r' a h
    unfold get_conversation_id
    rw [h]
  · intro r s w1 p' w2 tag htag hp hw1 hw2 hs
    unfold get_conversation_id
    rw [cleanSubject_tagged w1 p' w2 s tag htag hp hw1 hw2 hs]

/-- Witness for `get_conversation_id_spec`: prepending `" RE: "` to the
untagged subject `"Casa Playa"` leaves the id unchanged. -/
theorem get_conversation_id_spec_witness :
    get_conversation_id "ana@mail.cl" (" " ++ "RE:" ++ " " ++ "Casa Playa") =
      get_conversation_id "ana@mail.cl" "Casa Playa" :=
  get_conversation_id_spec.2.2.2.1 "ana@mail.cl" "Casa Playa" " " "RE:" " "
    ['r', 'e', ':'] (Or.inl rfl) (by decide) (by decide) (by decide) (by decide)

/-- C3: a freshly created conversation (and likewise an unknown id) is
missing exactly the six required fields in order; after setting all six
via `update_conversation_field` with truthy values the missing list is
empty; `is_confirmed` holds exactly when the stored `confirmacion` value
is the literal string `"sí"`, so it stays false through the six updates
and becomes true once `confirmacion` is set to `"sí"`. -/
theorem conversation_missing_fields_spec :
    (∀ (r a : String) (now : Nat),
      get_missing_fields (create_or_update_conversation [] r a now).1
          (create_or_update_conversation [] r a now).2 =
        ["nombre_cliente", "propiedad", "check_in", "check_out",
         "numero_huespedes", "correo_cliente"]) ∧
    (∀ cid : String, get_missing_fields [] cid =
        ["nombre_cliente", "propiedad", "check_in", "check_out",
         "numero_huespedes", "correo_cliente"]) ∧
    (∀ (db : List Conversation) (cid : String), is_confirmed db cid = true ↔
      ∃ c, get_conversation db cid = some c ∧ c.confirmacion = some (.vstr "sí")) ∧
    (∀ (r a : String) (now now' : Nat) (v1 v2 v3 v4 v5 v6 : PyVal),
      pyTruthy (some v1) = true → pyTruthy (some v2) = true →
      pyTruthy (some v3) = true → pyTruthy (some v4) = true →
      pyTruthy (some v5) = true → pyTruthy (some v6) = true →
      get_missing_fields
        (applyUpdate (applyUpdate (applyUpdate (applyUpdate (applyUpdate (applyUpdate
          (create_or_update_conversation [] r a now).1
          (create_or_update_conversation [] r a now).2 "nombre_cliente" v1 now')
          (create_or_update_conversation [] r a now).2 "propiedad" v2 now')
          (create_or_update_conversation [] r a now).2 "check_in" v3 now')
          (create_or_update_conversation [] r a now).2 "check_out" v4 now')
          (create_or_update_conversation [] r a now).2 "numero_huespedes" v5 now')
          (create_or_update_conversation [] r a now).2 "correo_cliente" v6 now')
        (create_or_update_conversation [] r a now).2 = [] ∧
      is_confirmed
        (applyUpdate (applyUpdate (applyUpdate (applyUpdate (applyUpdate (applyUpdate
          (create_or_update_conversation [] r a now).1
          (create_or_update_conversation [] r a now).2 "nombre_cliente" v1 now')
          (create_or_update_conversation [] r a now).2 "propiedad" v2 now')
          (create_or_update_conversation [] r a now).2 "check_in" v3 now')
          (create_or_update_conversation [] r a now).2 "check_out" v4 now')
          (create_or_update_conversation [] r a now).2 "numero_huespedes" v5 now')
          (create_or_update_conversation [] r a now).2 "correo_cliente" v6 now')
        (create_or_update_conversation [] r a now).2 = false ∧
      is_confirmed
        (applyUpdate (applyUpdate (applyUpdate (applyUpdate (applyUpdate (applyUpdate (applyUpdate
          (create_or_update_conversation [] r a now).1
          (create_or_update_conversation [] r a now).2 "nombre_cliente" v1 now')
          (create_or_update_conversation [] r a now).2 "propiedad" v2 now')
          (create_or_update_conversation [] r a now).2 "check_in" v3 now')
          (create_or_update_conversation [] r a now).2 "check_out" v4 now')
          (create_or_update_conversation [] r a now).2 "numero_huespedes" v5 now')
          (create_or_update_conversation [] r a now).2 "correo_cliente" v6 now')
          (create_or_update_conversation [] r a now).2 "confirmacion" (.vstr "sí") now')
        (create_or_update_conversation [] r a now).2 = true) := by
  refine ⟨?_, fun cid => rfl, ?_, ?_⟩
  · intro r a now
    simp [create_or_update_conversation, get_conversation, get_missing_fields, pyTruthy]
  · intro db cid
    rcases h : get_conversation db cid with _ | c
    · simp [is_confirmed, h]
    · simp [is_confirmed, h, beq_iff_eq]
  · intro r a now now' v1 v2 v3 v4 v5 v6 h1 h2 h3 h4 h5 h6
    refine ⟨?_, ?_, ?_⟩ <;>
      simp [create_or_update_conversation, get_conversation, get_missing_fields,
        applyUpdate, update_conversation_field, allowed_fields, setConversationField,
        is_confirmed, h1, h2, h3, h4, h5, h6]

/-- Witness for `conversation_missing_fields_spec`: the full scenario run
with concrete truthy values. -/
theorem conversation_missing_fields_witness :
      get_missing_fields
        (applyUpdate (applyUpdate (applyUpdate (applyUpdate (applyUpdate (applyUpdate
          (create_or_update_conversation [] "ana@mail.cl" "Reserva" 0).1
          (create_or_update_conversation [] "ana@mail.cl" "Reserva" 0).2 "nombre_cliente" (PyVal.vstr "Ana") 1)
          (create_or_update_conversation [] "ana@mail.cl" "Reserva" 0).2 "propiedad" (PyVal.vstr "Casa Playa") 1)
          (create_or_update_conversation [] "ana@mail.cl" "Reserva" 0).2 "check_in" (PyVal.vstr "2024-10-10") 1)
          (create_or_update_conversation [] "ana@mail.cl" "Reserva" 0).2 "check_out" (PyVal.vstr "2024-10-15") 1)
          (create_or_update_conversation [] "ana@mail.cl" "Reserva" 0).2 "numero_huespedes" (PyVal.vint 4) 1)
          (create_or_update_conversation [] "ana@mail.cl" "Reserva" 0).2 "correo_cliente" (PyVal.vstr "ana@mail.cl") 1)
        (create_or_update_conversation [] "ana@mail.cl" "Reserva" 0).2 = [] ∧
      is_confirmed
        (applyUpdate (applyUpdate (applyUpdate (applyUpdate (applyUpdate (applyUpdate
          (create_or_update_conversation [] "ana@mail.cl" "Reserva" 0).1
          (create_or_update_conversation [] "ana@mail.cl" "Reserva" 0).2 "nombre_cliente" (PyVal.vstr "Ana") 1)
          (create_or_update_conversation [] "ana@mail.cl" "Reserva" 0).2 "propiedad" (PyVal.vstr "Casa Playa") 1)
          (create_or_update_conversation [] "ana@mail.cl" "Reserva" 0).2 "check_in" (PyVal.vstr "2024-10-10") 1)
          (create_or_update_conversation [] "ana@mail.cl" "Reserva" 0).2 "check_out" (PyVal.vstr "2024-10-15") 1)
          (create_or_update_conversation [] "ana@mail.cl" "Reserva" 0).2 "numero_huespedes" (PyVal.vint 4) 1)
          (create_or_update_conversation [] "ana@mail.cl" "Reserva" 0).2 "correo_cliente" (PyVal.vstr "ana@mail.cl") 1)
        (create_or_update_conversation [] "ana@mail.cl" "Reserva" 0).2 = false ∧
      is_confirmed
        (applyUpdate (applyUpdate (applyUpdate (applyUpdate (applyUpdate (applyUpdate (applyUpdate
          (create_or_update_conversation [] "ana@mail.cl" "Reserva" 0).1
          (create_or_update_conversation [] "ana@mail.cl" "Reserva" 0).2 "nombre_cliente" (PyVal.vstr "Ana") 1)
          (create_or_update_conversation [] "ana@mail.cl" "Reserva" 0).2 "propiedad" (PyVal.vstr "Casa Playa") 1)
          (create_or_update_conversation [] "ana@mail.cl" "Reserva" 0).2 "check_in" (PyVal.vstr "2024-10-10") 1)
          (create_or_update_conversation [] "ana@mail.cl" "Reserva" 0).2 "check_out" (PyVal.vstr "2024-10-15") 1)
          (create_or_update_conversation [] "ana@mail.cl" "Reserva" 0).2 "numero_huespedes" (PyVal.vint 4) 1)
          (create_or_update_conversation [] "ana@mail.cl" "Reserva" 0).2 "correo_cliente" (PyVal.vstr "ana@mail.cl") 1)
          (create_or_update_conversation [] "ana@mail.cl" "Reserva" 0).2 "confirmacion" (PyVal.vstr "sí") 1)
        (create_or_update_conversation [] "ana@mail.cl" "Reserva" 0).2 = true :=
  conversation_missing_fields_spec.2.2.2 "ana@mail.cl" "Reserva" 0 1
    (PyVal.vstr "Ana") (PyVal.vstr "Casa Playa") (PyVal.vstr "2024-10-10")
    (PyVal.vstr "2024-10-15") (PyVal.vint 4) (PyVal.vstr "ana@mail.cl")
    (by decide) (by decide) (by decide) (by decide) (by decide) (by decide)

/-- C6: `update_conversation_field` raises the invalid-field error exactly
for field names outside the ten-name whitelist (returning the error
synchronously with the offending name in the message), and for whitelisted
names performs the update: the named column takes the new value and
`updated_at` is stamped, every row with a different id left to the map's
identity branch. -/
theorem update_conversation_field_spec :
    (∀ (db : List Conversation) (cid f : String) (v : PyVal) (now : Nat),
      (∃ e, update_conversation_field db cid f v now = .error e) ↔ f ∉ allowed_fields) ∧
    (∀ (db : List Conversation) (cid f : String) (v : PyVal) (now : Nat),
      f ∉ allowed_fields →
      update_conversation_field db cid f v now = .error ("Campo no válido: " ++ f)) ∧
    (∀ (db : List Conversation) (cid f : String) (v : PyVal) (now : Nat),
      f ∈ allowed_fields →
      update_conversation_field db cid f v now =
        .ok (db.map (fun c => if c.id == cid then setConversationField c f v now else c))) ∧
    (∀ (c : Conversation) (f : String) (v : PyVal) (now : Nat),
      f ∈ allowed_fields →
      getConversationField (setConversationField c f v now) f = some v ∧
      (setConversationField c f v now).updated_at = now) ∧
    allowed_fields =
      ["nombre_cliente", "propiedad", "propiedad_id", "check_in", "check_out",
       "numero_huespedes", "correo_cliente", "telefono_cliente", "confirmacion",
       "estado"] := by
  refine ⟨?_, ?_, ?_, ?_, rfl⟩
  · intro db cid f v now
    by_cases h : f ∈ allowed_fields <;> simp [update_conversation_field, h]
  · intro db cid f v now h
    simp [update_conversation_field, h]
  · intro db cid f v now h
    simp [update_conversation_field, h]
  · intro c f v now hf
    simp only [allowed_fields, List.mem_cons, List.not_mem_nil, or_false] at hf
    rcases hf with rfl | rfl | rfl | rfl | rfl | rfl | rfl | rfl | rfl | rfl <;>
      simp [setConversationField, getConversationField]

/-- Witness for `update_conversation_field_spec`: the whitelisted field
`"telefono_cliente"` is updated (value stored, `updated_at` stamped), and
the unknown field `"telefono"` raises the invalid-field error. -/
theorem update_conversation_field_witness :
    (update_conversation_field [] "abc" "telefono" (PyVal.vstr "9") 5 =
      .error ("Campo no válido: " ++ "telefono")) ∧
    getConversationField
      (setConversationField
        { id := "abc", asunto := "x", remitente := "y", created_at := 0, updated_at := 0 }
        "telefono_cliente" (PyVal.vstr "9") 5) "telefono_cliente" = some (PyVal.vstr "9") ∧
    (setConversationField
        { id := "abc", asunto := "x", remitente := "y", created_at := 0, updated_at := 0 }
        "telefono_cliente" (PyVal.vstr "9") 5).updated_at = 5 :=
  ⟨update_conversation_field_spec.2.1 [] "abc" "telefono" (PyVal.vstr "9") 5 (by decide),
   (update_conversation_field_spec.2.2.2.1
      { id := "abc", asunto := "x", remitente := "y", created_at := 0, updated_at := 0 }
      "telefono_cliente" (PyVal.vstr "9") 5 (by decide)).1,
   (update_conversation_field_spec.2.2.2.1
      { id := "abc", asunto := "x", remitente := "y", created_at := 0, updated_at := 0 }
      "telefono_cliente" (PyVal.vstr "9") 5 (by decide)).2⟩

theorem mem_if_singleton {x y : String} {b : Bool} :
    (x ∈ if b = true then [y] else []) ↔ b = true ∧ x = y := by
  cases b <;> simp

theorem setConversationField_id (c : Conversation) (f : String) (v : PyVal) (now : Nat) :
    (setConversationField c f v now).id = c.id := by
  unfold setConversationField
  repeat' split
  all_goals rfl

theorem find?_map_id_preserving (g : Conversation → Conversation)
    (hg : ∀ c, (g c).id = c.id) (db : List Conversation) (cid : String) :
    (db.map g).find? (fun c => c.id == cid) = (db.find? (fun c => c.id == cid)).map g := by
  induction db with
  | nil => rfl
  | cons x xs ih =>
    simp only [List.map_cons, List.find?_cons, hg]
    cases hx : x.id == cid
    · simpa [hx] using ih
    · simp [hx]

theorem get_conversation_applyUpdate (db : List Conversation) (cid f : String)
    (v : PyVal) (now : Nat) (hf : f ∈ allowed_fields) :
    get_conversation (applyUpdate db cid f v now) cid =
      (get_conversation db cid).map
        (fun c => if c.id == cid then setConversationField c f v now else c) := by
  unfold applyUpdate update_conversation_field
  simp only [hf, if_true]
  unfold get_conversation
  exact find?_map_id_preserving _
    (fun c => by by_cases h : c.id = cid <;> simp [h, setConversationField_id]) db cid

/-- C9: `get_missing_fields` tests falsiness, not presence: a field
explicitly set (via `update_conversation_field`) to the empty string or
the integer 0 is still reported missing, exactly like a NULL field — for
every conversation row, a required field is in the missing list iff its
stored value is Python-falsy. -/
theorem get_missing_fields_falsy_spec :
    (∀ (db : List Conversation) (cid : String) (now : Nat),
      "numero_huespedes" ∈ get_missing_fields
        (applyUpdate db cid "numero_huespedes" (.vint 0) now) cid) ∧
    (∀ (db : List Conversation) (cid : String) (now : Nat),
      "propiedad" ∈ get_missing_fields
        (applyUpdate db cid "propiedad" (.vstr "") now) cid) ∧
    (∀ (db : List Conversation) (cid : String) (c : Conversation),
      get_conversation db cid = some c →
      ∀ f ∈ requiredFields,
        (f ∈ get_missing_fields db cid ↔ pyTruthy (getConversationField c f) = false)) := by
  refine ⟨?_, ?_, ?_⟩
  · intro db cid now
    have hup := get_conversation_applyUpdate db cid "numero_huespedes" (.vint 0) now (by decide)
    unfold get_missing_fields
    rw [hup]
    rcases h : get_conversation db cid with _ | c
    · simp
    · have hid : (c.id == cid) = true := List.find?_some
        (p := fun x : Conversation => x.id == cid) (by simpa [get_conversation] using h)
      have hceq : c.id = cid := by simpa using hid
      simp [hceq, setConversationField, pyTruthy]
  · intro db cid now
    have hup := get_conversation_applyUpdate db cid "propiedad" (.vstr "") now (by decide)
    unfold get_missing_fields
    rw [hup]
    rcases h : get_conversation db cid with _ | c
    · simp
    · have hid : (c.id == cid) = true := List.find?_some
        (p := fun x : Conversation => x.id == cid) (by simpa [get_conversation] using h)
      have hceq : c.id = cid := by simpa using hid
      simp [hceq, setConversationField, pyTruthy]
  · intro db cid c hc f hf
    simp only [requiredFields, List.mem_cons, List.not_mem_nil, or_false] at hf
    unfold get_missing_fields
    rw [hc]
    rcases hf with rfl | rfl | rfl | rfl | rfl | rfl <;>
      simp [mem_if_singleton, getConversationField]

/-- Witness for `get_missing_fields_falsy_spec`: on a one-row table whose
`propiedad` was set to `""`, `propiedad` is reported missing iff its
stored value is falsy. -/
theorem get_missing_fields_falsy_witness :
    "numero_huespedes" ∈ get_missing_fields
      (applyUpdate [] "abc" "numero_huespedes" (.vint 0) 3) "abc" ∧
    ("propiedad" ∈ get_missing_fields
        [{ id := "abc", asunto := "x", remitente := "y", propiedad := some (.vstr ""),
           created_at := 0, updated_at := 0 }] "abc" ↔
      pyTruthy (getConversationField
        { id := "abc", asunto := "x", remitente := "y", propiedad := some (.vstr ""),
          created_at := 0, updated_at := 0 } "propiedad") = false) :=
  ⟨get_missing_fields_falsy_spec.1 [] "abc" 3,
   get_missing_fields_falsy_spec.2.2
     [{ id := "abc", asunto := "x", remitente := "y", propiedad := some (.vstr ""),
        created_at := 0, updated_at := 0 }] "abc"
     { id := "abc", asunto := "x", remitente := "y", propiedad := some (.vstr ""),
       created_at := 0, updated_at := 0 } (by decide) "propiedad" (by decide)⟩

/-- C10: `marcar_mensaje_respondido` sets `respondido := 1` and
`respuesta` to the given text on the targeted row; `motivo_no_respuesta`
is overwritten only when the argument is truthy (a `None` or `""` argument
leaves the stored column unchanged); every other column of the targeted
row and every row with a different id are untouched. -/
theorem marcar_mensaje_respondido_spec :
    (∀ (resp : String) (motivo : Option String) (m : Mensaje),
      (markRow resp motivo m).respondido = 1 ∧
      (markRow resp motivo m).respuesta = some resp ∧
      (markRow resp motivo m).motivo_no_respuesta =
        (if pyTruthyStr motivo then motivo else m.motivo_no_respuesta) ∧
      (markRow resp motivo m).id = m.id ∧
      (markRow resp motivo m).remitente = m.remitente ∧
      (markRow resp motivo m).asunto = m.asunto ∧
      (markRow resp motivo m).cuerpo = m.cuerpo ∧
      (markRow resp motivo m).fecha_recibido = m.fecha_recibido) ∧
    (∀ (db : List Mensaje) (mid : Nat) (resp : String) (motivo : Option String) (i : Nat),
      (marcar_mensaje_respondido db mid resp motivo)[i]? =
        (db[i]?).map (fun m => if m.id == mid then markRow resp motivo m else m)) := by
  constructor
  · intro resp motivo m
    unfold markRow
    by_cases h : pyTruthyStr motivo = true <;> simp [h]
  · intro db mid resp motivo i
    simp [marcar_mensaje_respondido]

/-- C7 counterexample: `return_object` does NOT clear list contents — a
one-element list returned directly through `ObjectPool.return_object` is
handed out again by `get()` still holding its element (length 1 ≠ 0). -/
theorem objectPool_counterexample :
    (({ factory := .list [], max_size := 20, pool := [] } : ObjectPool).return_object
        (.list [1])).get.1 = .list [1] ∧
    PyObj.list [1] ≠ PyObj.list [] := by
  decide

theorem return_object_len (p : ObjectPool) (o : PyObj)
    (h : p.pool.length ≤ p.max_size) :
    (p.return_object o).pool.length ≤ p.max_size ∧
    (p.return_object o).max_size = p.max_size ∧
    (p.return_object o).factory = p.factory := by
  unfold ObjectPool.return_object
  split
  · simp
    omega
  · exact ⟨h, rfl, rfl⟩

theorem poolStep_inv (p : ObjectPool) (op : PoolOp)
    (h : p.pool.length ≤ p.max_size) :
    (poolStep p op).pool.length ≤ p.max_size ∧
    (poolStep p op).max_size = p.max_size ∧
    (poolStep p op).factory = p.factory := by
  cases op with
  | get =>
      rcases p with ⟨f, m, _ | ⟨o, rest⟩⟩
      · exact ⟨h, rfl, rfl⟩
      · refine ⟨?_, rfl, rfl⟩
        simp only [poolStep, ObjectPool.get] at h ⊢
        simp at h
        omega
  | retObj o => exact return_object_len p o h
  | retToPool o => cases o <;> exact return_object_len p _ h

theorem runPool_inv (ops : List PoolOp) (p : ObjectPool)
    (h : p.pool.length ≤ p.max_size) :
    (runPool p ops).pool.length ≤ p.max_size ∧
    (runPool p ops).max_size = p.max_size ∧
    (runPool p ops).factory = p.factory := by
  induction ops generalizing p with
  | nil => exact ⟨h, rfl, rfl⟩
  | cons op ops ih =>
    obtain ⟨h1, h2, h3⟩ := poolStep_inv p op h
    obtain ⟨a1, a2, a3⟩ := ih (poolStep p op) (h2 ▸ h1)
    rw [runPool, List.foldl_cons]
    exact ⟨le_trans a1 (le_of_eq h2), a2.trans h2, a3.trans h3⟩

theorem runPool_lists_empty (ops : List PoolOp) (p : ObjectPool)
    (hp : ∀ l, PyObj.list l ∈ p.pool → l = [])
    (hops : ∀ op ∈ ops, ∀ o, op ≠ .retObj o) :
    ∀ l, PyObj.list l ∈ (runPool p ops).pool → l = [] := by
  induction ops generalizing p with
  | nil => exact hp
  | cons op ops ih =>
    rw [runPool, List.foldl_cons]
    refine ih (poolStep p op) ?_ (fun o ho => hops o (by simp [ho]))
    intro l hl
    cases op with
    | get =>
        rcases p with ⟨f, m, _ | ⟨o, rest⟩⟩
        · exact hp l hl
        · exact hp l (by simp [poolStep, ObjectPool.get] at hl ⊢; tauto)
    | retObj o => exact absurd rfl (hops _ (by simp) o)
    | retToPool o =>
        have haux : ∀ (x : PyObj), (∀ l', x = PyObj.list l' → l' = []) →
            PyObj.list l ∈ (ObjectPool.return_object p x).pool → l = [] := by
          intro x hx hmem
          unfold ObjectPool.return_object at hmem
          split at hmem
          · simp only [List.mem_append, List.mem_singleton] at hmem
            rcases hmem with hmem | hmem
            · exact hp l hmem
            · exact hx l (by cases x <;> simpa [resetIfHasReset] using hmem.symm)
          · exact hp l hmem
        cases o with
        | list es => exact haux _ (fun l' h' => by injection h' with he; exact he.symm) hl
        | dict es => exact haux _ (fun l' h' => by cases h') hl
        | str s => exact haux _ (fun l' h' => by cases h') hl
        | withReset s => exact haux _ (fun l' h' => by cases h') hl
        | plain s => exact haux _ (fun l' h' => by cases h') hl

/-- C7 amended: the pool never holds more than `max_size` objects under any
call sequence; `return_object` only calls an object's own `reset` method
(list and dict contents are NOT cleared by it — see the counterexample);
the clearing is done by the module-level `return_to_pool` before returning,
so when lists come back through `return_to_pool` every list in the pool is
empty and `get()` only hands out empty lists. -/
theorem objectPool_spec :
    (∀ (f : PyObj) (m : Nat) (ops : List PoolOp),
      (runPool { factory := f, max_size := m, pool := [] } ops).pool.length ≤ m) ∧
    (∀ l, resetIfHasReset (.list l) = .list l) ∧
    (∀ d, resetIfHasReset (.dict d) = .dict d) ∧
    (∀ s, resetIfHasReset (.withReset s) = .withReset 0) ∧
    (∀ (m : Nat) (ops : List PoolOp),
      (∀ op ∈ ops, ∀ o, op ≠ .retObj o) →
      ∀ l, PyObj.list l ∈
          (runPool { factory := .list [], max_size := m, pool := [] } ops).pool →
        l = []) ∧
    (∀ (m : Nat) (ops : List PoolOp),
      (∀ op ∈ ops, ∀ o, op ≠ .retObj o) →
      ∀ l, (runPool { factory := .list [], max_size := m, pool := [] } ops).get.1 =
          .list l →
        l = []) := by
  refine ⟨?_, fun l => rfl, fun d => rfl, fun s => rfl, ?_, ?_⟩
  · intro f m ops
    exact (runPool_inv ops _ (by simp)).1
  · intro m ops hops l
    exact runPool_lists_empty ops _ (by simp) hops l
  · intro m ops hops l hget
    have hfac : (runPool { factory := .list [], max_size := m, pool := [] } ops).factory =
        PyObj.list [] := (runPool_inv ops _ (by simp)).2.2
    have hmem := runPool_lists_empty ops
      { factory := .list [], max_size := m, pool := [] } (by simp) hops
    rcases hq : runPool { factory := .list [], max_size := m, pool := [] } ops
      with ⟨f', m', _ | ⟨o, rest⟩⟩
    · rw [hq] at hget hfac
      simp only [ObjectPool.get] at hget
      subst hget
      simpa using hfac
    · rw [hq] at hget hmem
      simp [ObjectPool.get] at hget
      exact hmem l (by simp [hget])

/-- Witness for `objectPool_spec`: 25 list returns through
`return_to_pool` into a `max_size = 20` pool leave at most 20 pooled
objects, and a list handed out by `get` after such traffic is empty. -/
theorem objectPool_spec_witness :
    (runPool { factory := .list [], max_size := 20, pool := [] }
      (List.replicate 25 (PoolOp.retToPool (.list [1])))).pool.length ≤ 20 ∧
    ([] : List Nat) = [] :=
  ⟨objectPool_spec.1 (.list []) 20 (List.replicate 25 (PoolOp.retToPool (.list [1]))),
   objectPool_spec.2.2.2.2.2 20 [PoolOp.retToPool (.list [1]), PoolOp.get]
     (by
       intro op hop o
       simp only [List.mem_cons, List.not_mem_nil, or_false] at hop
       rcases hop with rfl | rfl <;> simp) [] (by decide)⟩

/-- C5 counterexample: the class method `extract_dates` does not recognise
the `"entre el D1 y D2 de MONTH"` phrasing.  With current date October
2026 (so the rollover rule would map July to 2027), the text
`"entre el 5 y 8 de julio"` yields no dates at all rather than the two
expected ones. -/
theorem extract_dates_entre_counterexample :
    extract_dates 10 2026 "entre el 5 y 8 de julio" = [] ∧
    extract_dates 10 2026 "entre el 5 y 8 de julio" ≠ ["2027-07-05", "2027-07-08"] := by
  refine ⟨by decide, by decide⟩

/-- C5 amended: the `entre` regex family is indeed built by
`_build_date_patterns` (it is the fourth pattern of `self.date_patterns`)
and by itself it does match `"entre el 5 y 8 de julio"`, capturing 5, 8
and julio — but the class method `extract_dates` never consults
`self.date_patterns`, matching only its four inline families, so it
returns no dates on that text whatever the current date. -/
theorem extract_dates_entre_spec :
    entrePat ∈ build_date_patterns ∧
    (reFindAll entrePat 3 "entre el 5 y 8 de julio").map (fun g => g.map String.mk) =
      [["5", "8", "julio"]] ∧
    (∀ cm cy : Nat, extract_dates cm cy "entre el 5 y 8 de julio" = []) := by
  refine ⟨?_, by decide, fun cm cy => rfl⟩
  exact List.mem_cons_of_mem _ (List.mem_cons_of_mem _ (List.mem_cons_of_mem _
    (List.mem_cons_self _ _)))

/-- C8: `detect_confirmation_optimized` is exactly a search for the
confirmation keyword pattern (no reservation-context requirement), and on
the bare keyword `"ok"` it answers true while the primary
`detect_confirmation` — which additionally requires a reservation-context
word — answers false. -/
theorem detect_confirmation_optimized_spec :
    (∀ t : String, detect_confirmation_optimized t = reSearch confPatOpt (pyLower t)) ∧
    detect_confirmation_optimized "ok" = true ∧
    detect_confirmation "ok" = false :=
  ⟨fun t => rfl, by decide, by decide⟩
